import Mathlib

/-!
Verification development for the blobbin renderer.

Shallow embedding of the graphics state manager (`src/graphics/state.rs`),
camera and controller (`src/graphics/camera.rs`) and instance transforms
(`src/graphics/instance.rs`).  `f32` scalars are modelled as rationals: every
value and arithmetic operation appearing in the verified properties (axis
values in {-1, 0, 1}, multipliers in {0.25, 1, 2}, additions and
multiplications by zero or one, matrix entry arithmetic on exactly
representable inputs) is exact in IEEE binary32 as well, so the rational
model agrees with the machine semantics on the statements proved here.
GPU handles (buffers, swap chains, pipelines) are modelled as natural-number
identities handed out by a device allocator, so that "reallocated" resources
are observably fresh.  The irrational ingredients of `cgmath` (`tan` inside
`perspective`, the inverse length inside `normalize`) are passed in as
oracle functions, which the structural properties proved below do not
constrain.
-/

namespace Blobbin

/-! ## Rational 3/4-vectors, quaternions and column-major 4x4 matrices,
modelling `cgmath::Vector3<f32>`, `cgmath::Vector4<f32>`,
`cgmath::Quaternion<f32>` and `cgmath::Matrix4<f32>`. -/

structure Vec3 where
  x : ℚ
  y : ℚ
  z : ℚ
deriving DecidableEq, Repr

structure Vec4 where
  x : ℚ
  y : ℚ
  z : ℚ
  w : ℚ
deriving DecidableEq, Repr

/-- `cgmath::Quaternion { s, v }`: scalar part plus vector part. -/
structure Quat where
  s : ℚ
  v : Vec3
deriving DecidableEq, Repr

/-- Column-major 4x4 matrix, like `cgmath::Matrix4` (the sixteen arguments of
`Matrix4::new` fill `c0` through `c3`, one column at a time). -/
structure Mat4 where
  c0 : Vec4
  c1 : Vec4
  c2 : Vec4
  c3 : Vec4
deriving DecidableEq, Repr

def Vec3.sub (a b : Vec3) : Vec3 := ⟨a.x - b.x, a.y - b.y, a.z - b.z⟩

def Vec3.dot (a b : Vec3) : ℚ := a.x * b.x + a.y * b.y + a.z * b.z

def Vec3.cross (a b : Vec3) : Vec3 :=
  ⟨a.y * b.z - a.z * b.y, a.z * b.x - a.x * b.z, a.x * b.y - a.y * b.x⟩

def Vec3.smul (k : ℚ) (v : Vec3) : Vec3 := ⟨k * v.x, k * v.y, k * v.z⟩

/-- `cgmath`'s `InnerSpace::normalize`, i.e. `v * (1 / |v|)`; the reciprocal
length (an irrational function of `v` in general) is supplied as the oracle
`invLen`. -/
def Vec3.normalize (invLen : Vec3 → ℚ) (v : Vec3) : Vec3 :=
  Vec3.smul (invLen v) v

/-- Matrix-vector product (`Matrix4 * Vector4`): linear combination of the
columns by the vector's components. -/
def Mat4.mulVec (m : Mat4) (v : Vec4) : Vec4 :=
  ⟨m.c0.x * v.x + m.c1.x * v.y + m.c2.x * v.z + m.c3.x * v.w,
   m.c0.y * v.x + m.c1.y * v.y + m.c2.y * v.z + m.c3.y * v.w,
   m.c0.z * v.x + m.c1.z * v.y + m.c2.z * v.z + m.c3.z * v.w,
   m.c0.w * v.x + m.c1.w * v.y + m.c2.w * v.z + m.c3.w * v.w⟩

/-- Matrix product (`Matrix4 * Matrix4`): the columns of `a * b` are `a`
applied to the columns of `b`, as in `cgmath`. -/
def Mat4.mul (a b : Mat4) : Mat4 :=
  ⟨a.mulVec b.c0, a.mulVec b.c1, a.mulVec b.c2, a.mulVec b.c3⟩

def Mat4.identity : Mat4 :=
  ⟨⟨1, 0, 0, 0⟩, ⟨0, 1, 0, 0⟩, ⟨0, 0, 1, 0⟩, ⟨0, 0, 0, 1⟩⟩

/-! ## Camera (`src/graphics/camera.rs`) -/

/-- `Camera`: eye position, up vector, aspect ratio, vertical field of view in
degrees, near and far planes. -/
structure Camera where
  eye : Vec3
  up : Vec3
  aspect : ℚ
  fovy : ℚ
  znear : ℚ
  zfar : ℚ
deriving DecidableEq, Repr

/-- `OPENGL_TO_WGPU_MATRIX` from `camera.rs`: `Matrix4::new(1,0,0,0,
0,1,0,0, 0,0,0.5,0, 0,0,0.5,1)` (column-major). -/
def OPENGL_TO_WGPU_MATRIX : Mat4 :=
  ⟨⟨1, 0, 0, 0⟩, ⟨0, 1, 0, 0⟩, ⟨0, 0, 1/2, 0⟩, ⟨0, 0, 1/2, 1⟩⟩

/-- `cgmath::Matrix4::look_at(eye, center, up)` (right-handed):
`f = normalize(center - eye)`, `s = normalize(f × up)`, `u = s × f`,
columns `(s.x, u.x, -f.x, 0)` ... `(-eye·s, -eye·u, eye·f, 1)`. -/
def Matrix4.look_at (invLen : Vec3 → ℚ) (eye center up : Vec3) : Mat4 :=
  let f := Vec3.normalize invLen (Vec3.sub center eye)
  let s := Vec3.normalize invLen (Vec3.cross f up)
  let u := Vec3.cross s f
  ⟨⟨s.x, u.x, -f.x, 0⟩,
   ⟨s.y, u.y, -f.y, 0⟩,
   ⟨s.z, u.z, -f.z, 0⟩,
   ⟨-(Vec3.dot eye s), -(Vec3.dot eye u), Vec3.dot eye f, 1⟩⟩

/-- `cgmath::perspective(Deg(fovy), aspect, near, far)`: with
`f = cot(radians(fovy) / 2)` (supplied as the oracle `cotHalfDeg`, since it is
irrational in general), the matrix has columns `(f/aspect, 0, 0, 0)`,
`(0, f, 0, 0)`, `(0, 0, (far+near)/(near-far), -1)`,
`(0, 0, 2*far*near/(near-far), 0)`. -/
def perspective (cotHalfDeg : ℚ → ℚ) (fovy aspect near far : ℚ) : Mat4 :=
  let f := cotHalfDeg fovy
  ⟨⟨f / aspect, 0, 0, 0⟩,
   ⟨0, f, 0, 0⟩,
   ⟨0, 0, (far + near) / (near - far), -1⟩,
   ⟨0, 0, (2 * far * near) / (near - far), 0⟩⟩

/-- `Camera::build_view_projection_matrix`: the target is one unit from the
eye along -z (`(eye.x, eye.y, eye.z - 1.0)`), the view matrix is
`look_at(eye, target, up)`, the projection is
`perspective(Deg(fovy), aspect, znear, zfar)`, and the result is
`OPENGL_TO_WGPU_MATRIX * proj * view`. -/
def Camera.build_view_projection_matrix (cotHalfDeg : ℚ → ℚ)
    (invLen : Vec3 → ℚ) (c : Camera) : Mat4 :=
  let target : Vec3 := ⟨c.eye.x, c.eye.y, c.eye.z - 1⟩
  let view := Matrix4.look_at invLen c.eye target c.up
  let proj := perspective cotHalfDeg c.fovy c.aspect c.znear c.zfar
  Mat4.mul (Mat4.mul OPENGL_TO_WGPU_MATRIX proj) view

/-! ## Camera controller (`src/graphics/camera.rs`) -/

structure CameraController where
  speed : ℚ
  x_axis : ℚ
  y_axis : ℚ
  z_axis : ℚ
  speed_multiplier : ℚ
deriving DecidableEq, Repr

def CameraController.new (speed : ℚ) : CameraController :=
  ⟨speed, 0, 0, 0, 1⟩

/-- The `winit` virtual key codes matched by `process_events`, plus a few
unhandled ones falling into the wildcard arm. -/
inductive VirtualKeyCode where
  | A | D | W | S | R | E | F | Q
  | Left | Right | Up | Down
  | LShift | RShift | LAlt | RAlt
  | Space | Escape | Tab
deriving DecidableEq, Repr

inductive ElementState where
  | Pressed
  | Released
deriving DecidableEq, Repr

/-- The shape of `winit::event::WindowEvent` that `process_events` inspects:
a keyboard input carrying an element state and an optional virtual key code,
or any other window event. -/
inductive WindowEvent where
  | keyboardInput (state : ElementState) (virtual_keycode : Option VirtualKeyCode)
  | otherEvent
deriving DecidableEq, Repr

/-- `CameraController::process_events`: returns whether the input was consumed
together with the updated controller (`&mut self` made explicit). -/
def CameraController.process_events (c : CameraController) (event : WindowEvent) :
    Bool × CameraController :=
  match event with
  | .keyboardInput state (some keycode) =>
    let is_pressed := state = ElementState.Pressed
    let axis_value : ℚ := if is_pressed then 1 else 0
    match keycode with
    | .A | .Left => (true, { c with x_axis := -axis_value })
    | .D | .Right => (true, { c with x_axis := axis_value })
    | .W | .Up => (true, { c with y_axis := axis_value })
    | .S | .Down => (true, { c with y_axis := -axis_value })
    | .R | .E => (true, { c with z_axis := -axis_value })
    | .F | .Q => (true, { c with z_axis := axis_value })
    | .LShift | .RShift =>
      (true, { c with speed_multiplier := if is_pressed then 2 else 1 })
    | .LAlt | .RAlt =>
      (true, { c with speed_multiplier := if is_pressed then 1/4 else 1 })
    | _ => (false, c)
  | .keyboardInput _ none => (false, c)
  | .otherEvent => (false, c)

/-- `CameraController::update_camera`: adds `axis * speed * speed_multiplier`
to each eye coordinate. -/
def CameraController.update_camera (c : CameraController) (camera : Camera) :
    Camera :=
  { camera with
      eye := ⟨camera.eye.x + c.x_axis * c.speed * c.speed_multiplier,
              camera.eye.y + c.y_axis * c.speed * c.speed_multiplier,
              camera.eye.z + c.z_axis * c.speed * c.speed_multiplier⟩ }

/-! ## Instances (`src/graphics/instance.rs`) -/

/-- `Instance`: a position and a rotation. -/
structure Instance where
  position : Vec3
  rotation : Quat
deriving DecidableEq, Repr

/-- `InstanceRaw`: the 4x4 model matrix uploaded to the GPU. -/
structure InstanceRaw where
  model : Mat4
deriving DecidableEq, Repr

/-- `cgmath::Matrix4::from_translation(v)`: identity with `v` in the fourth
column. -/
def Matrix4.from_translation (v : Vec3) : Mat4 :=
  ⟨⟨1, 0, 0, 0⟩, ⟨0, 1, 0, 0⟩, ⟨0, 0, 1, 0⟩, ⟨v.x, v.y, v.z, 1⟩⟩

/-- `cgmath`'s `Matrix4::from(quat)`: the standard quaternion-to-matrix
formula; fourth column and fourth row are `(0,0,0,1)`. -/
def Matrix4.from_quaternion (q : Quat) : Mat4 :=
  let x2 := q.v.x + q.v.x
  let y2 := q.v.y + q.v.y
  let z2 := q.v.z + q.v.z
  let xx2 := x2 * q.v.x
  let xy2 := x2 * q.v.y
  let xz2 := x2 * q.v.z
  let yy2 := y2 * q.v.y
  let yz2 := y2 * q.v.z
  let zz2 := z2 * q.v.z
  let sy2 := y2 * q.s
  let sz2 := z2 * q.s
  let sx2 := x2 * q.s
  ⟨⟨1 - yy2 - zz2, xy2 + sz2, xz2 - sy2, 0⟩,
   ⟨xy2 - sz2, 1 - xx2 - zz2, yz2 + sx2, 0⟩,
   ⟨xz2 + sy2, yz2 - sx2, 1 - xx2 - yy2, 0⟩,
   ⟨0, 0, 0, 1⟩⟩

/-- `Instance::to_raw`: model matrix is
`Matrix4::from_translation(position) * Matrix4::from(rotation)`. -/
def Instance.to_raw (i : Instance) : InstanceRaw :=
  ⟨Mat4.mul (Matrix4.from_translation i.position)
            (Matrix4.from_quaternion i.rotation)⟩

/-! ## GPU resources and the object store

The GPU device hands out fresh numeric identities for allocated resources, so
that a reallocated buffer or a rebuilt swap chain is observably distinct from
the one it replaces. -/

structure GpuDevice where
  next_buffer_id : ℕ
deriving DecidableEq, Repr

def GpuDevice.create_buffer (d : GpuDevice) : ℕ × GpuDevice :=
  (d.next_buffer_id, ⟨d.next_buffer_id + 1⟩)

/-- Modelled from the spec: the `Vertex` type is declared outside `src/`
(§3: "position + (optional) color/texcoord attributes"); only its position is
modelled, since no verified property inspects vertex contents. -/
structure Vertex where
  position : Vec3
deriving DecidableEq, Repr

/-- Byte size of one `InstanceRaw` (a 4x4 matrix of 32-bit floats):
16 * 4 = 64 bytes, the fixed stride required by §3 of the spec. -/
def instanceRawByteSize : ℕ := 64

/-- Modelled from the spec: the `Object` type (its file is not under `src/`;
only `state.rs` calls it).  Per §3 and §4.1 it owns one immutable vertex
buffer, one immutable index buffer, an index count, and an append-only list
of instance transforms backed by one GPU buffer. -/
structure Object where
  vertex_buffer_id : ℕ
  index_buffer_id : ℕ
  num_indices : ℕ
  instances : List Instance
  instance_buffer_id : ℕ
deriving DecidableEq, Repr

/-- Modelled from the spec (§4.1 `create`): uploads immutable vertex and
index data into fresh buffers; the instance list starts empty with a fresh
(empty) backing buffer. -/
def Object.new (d : GpuDevice) (vertices : List Vertex) (indices : List ℕ) :
    Object × GpuDevice :=
  let (vb, d1) := d.create_buffer
  let (ib, d2) := d1.create_buffer
  let (instb, d3) := d2.create_buffer
  let _ := vertices
  (⟨vb, ib, indices.length, [], instb⟩, d3)

def Object.num_instances (o : Object) : ℕ := o.instances.length

def Object.instance_buffer (o : Object) : ℕ := o.instance_buffer_id

/-- Modelled from the spec (§8): the instance-buffer byte size equals
`instance_count * sizeof(raw_instance)`. -/
def Object.instance_buffer_size (o : Object) : ℕ :=
  instanceRawByteSize * o.instances.length

/-- Modelled from the spec (§4.1 `add_instance`): appends a transform,
re-derives the raw contents and reallocates the GPU-side buffer to the new
size (growth is a fresh allocation, not an in-place resize). -/
def Object.add_instance (o : Object) (d : GpuDevice) (position : Vec3)
    (rotation : Quat) : Object × GpuDevice :=
  let (buf, d1) := d.create_buffer
  ({ o with instances := o.instances ++ [⟨position, rotation⟩],
            instance_buffer_id := buf }, d1)

/-! ## The render-pipeline manager (`src/graphics/state.rs`) -/

structure PhysicalSize where
  width : ℕ
  height : ℕ
deriving DecidableEq, Repr

/-- `wgpu::Color`-style RGBA clear color (part of `GraphicsConfig`). -/
structure Color where
  r : ℚ
  g : ℚ
  b : ℚ
  a : ℚ
deriving DecidableEq, Repr

structure GraphicsConfig where
  clear_color : Color
deriving DecidableEq, Repr

/-- The fields of `wgpu::SwapChainDescriptor` that `resize` mutates. -/
structure SwapChainDescriptor where
  width : ℕ
  height : ℕ
deriving DecidableEq, Repr

/-- A swap chain: created at a specific size; each `create_swap_chain` call
yields a fresh generation. -/
structure SwapChain where
  width : ℕ
  height : ℕ
  generationId : ℕ
deriving DecidableEq, Repr

/-- The bind group built in `State::new` / `State::create_instance`:
binding 0 is the uniform buffer over `0..size_of(uniforms)`, binding 1 is a
storage buffer over `0..storage_range`. -/
structure BindGroup where
  uniform_buffer : ℕ
  uniform_range : ℕ
  storage_buffer : ℕ
  storage_range : ℕ
deriving DecidableEq, Repr

/-- Modelled from the spec: the `Uniforms` type (its file is not under
`src/`); §3: one view-projection matrix. -/
structure Uniforms where
  view_proj : Mat4
deriving DecidableEq, Repr

/-- Byte size of `Uniforms` (one 4x4 matrix of 32-bit floats). -/
def uniformsByteSize : ℕ := 64

/-- `GpuState` from `state.rs` (device, surface, queue, swap chain
descriptor, swap chain, render pipeline, uniform buffer, bind group). -/
structure GpuState where
  surface : ℕ
  device : GpuDevice
  queue : ℕ
  sc_desc : SwapChainDescriptor
  swap_chain : SwapChain
  render_pipeline : ℕ
  uniform_buffer : ℕ
  uniform_bind_group : BindGroup
deriving DecidableEq, Repr

/-- `State` from `state.rs`. -/
structure State where
  config : GraphicsConfig
  camera : Camera
  camera_controller : CameraController
  uniforms : Uniforms
  gpu : GpuState
  size : PhysicalSize
  objects : List Object
deriving DecidableEq, Repr

/-- `State::create_object`: pushes a new object and returns its index
(`objects.len() - 1`). -/
def State.create_object (s : State) (vertices : List Vertex)
    (indices : List ℕ) : ℕ × State :=
  let (object, d1) := Object.new s.gpu.device vertices indices
  let objects := s.objects ++ [object]
  (objects.length - 1,
   { s with objects := objects, gpu := { s.gpu with device := d1 } })

/-- `State::create_instance`: on a known handle, appends the instance to the
object, rebuilds the bind group so that binding 1 covers the object's new
instance buffer over `0..instance_buffer_size`, rebuilds the render pipeline,
and returns `Some(num_instances - 1)`; on an unknown handle returns `None`
and changes nothing. -/
def State.create_instance (s : State) (object_id : ℕ) (position : Vec3)
    (rotation : Quat) : Option ℕ × State :=
  match s.objects[object_id]? with
  | some object =>
    let (object', d1) := object.add_instance s.gpu.device position rotation
    let uniform_bind_group : BindGroup :=
      ⟨s.gpu.uniform_buffer, uniformsByteSize,
       object'.instance_buffer, object'.instance_buffer_size⟩
    let render_pipeline := s.gpu.render_pipeline + 1
    (some (object'.num_instances - 1),
     { s with
         objects := s.objects.set object_id object',
         gpu := { s.gpu with
                    device := d1,
                    uniform_bind_group := uniform_bind_group,
                    render_pipeline := render_pipeline } })
  | none => (none, s)

/-- `State::resize`: stores the new size, updates the swap chain descriptor's
width and height, and recreates the swap chain at that size.  The camera is
not touched. -/
def State.resize (s : State) (new_size : PhysicalSize) : State :=
  { s with
      size := new_size,
      gpu := { s.gpu with
                 sc_desc := ⟨new_size.width, new_size.height⟩,
                 swap_chain := ⟨new_size.width, new_size.height,
                                s.gpu.swap_chain.generationId + 1⟩ } }

/-- `State::input`: forwards the event to the camera controller. -/
def State.input (s : State) (event : WindowEvent) : Bool × State :=
  let (consumed, controller) := s.camera_controller.process_events event
  (consumed, { s with camera_controller := controller })

/-! ## The per-frame command trace of `State::render` -/

inductive RenderCmd where
  | beginRenderPass (clear_color : Color)
  | setPipeline (pipeline : ℕ)
  | setBindGroup (index : ℕ) (group : BindGroup)
  | setVertexBuffer (slot : ℕ) (buffer : ℕ)
  | setIndexBuffer (buffer : ℕ)
  | drawIndexed (num_indices : ℕ) (base_vertex : ℕ) (num_instances : ℕ)
deriving DecidableEq, Repr

/-- Outcome of `State::render`: either the process aborts (the `expect` call
on `get_next_texture`), or a command list is recorded and submitted. -/
inductive RenderResult where
  | crash (message : String)
  | ok (commands : List RenderCmd)
deriving DecidableEq, Repr

/-- The body of the per-object loop in `render`: set the vertex and index
buffers and issue one instanced indexed draw, but only when
`num_instances > 0`. -/
def Object.drawCommands (o : Object) : List RenderCmd :=
  if 0 < o.num_instances then
    [.setVertexBuffer 0 o.vertex_buffer_id,
     .setIndexBuffer o.index_buffer_id,
     .drawIndexed o.num_indices 0 o.num_instances]
  else []

/-- The `for object in &self.objects` loop of `render`, in order. -/
def drawAll : List Object → List RenderCmd
  | [] => []
  | o :: rest => o.drawCommands ++ drawAll rest

/-- `State::render`: `frame` is the result of
`swap_chain.get_next_texture()`; `none` models the error case, on which the
source calls `.expect("Timeout getting texture")` and the process aborts.
Otherwise one render pass is recorded: clear, bind the pipeline and the
single bind group once, then loop over the objects. -/
def State.render (s : State) (frame : Option ℕ) : RenderResult :=
  match frame with
  | none => .crash "Timeout getting texture"
  | some _ =>
    .ok ([.beginRenderPass s.config.clear_color,
          .setPipeline s.gpu.render_pipeline,
          .setBindGroup 0 s.gpu.uniform_bind_group]
         ++ drawAll s.objects)

def RenderCmd.isDraw : RenderCmd → Bool
  | .drawIndexed _ _ _ => true
  | _ => false

def RenderCmd.isBindGroupSet : RenderCmd → Bool
  | .setBindGroup _ _ => true
  | _ => false

def RenderResult.isCrash : RenderResult → Bool
  | .crash _ => true
  | .ok _ => false

/-- The draw calls recorded by a render outcome, in order. -/
def RenderResult.drawCalls : RenderResult → List RenderCmd
  | .crash _ => []
  | .ok commands => commands.filter RenderCmd.isDraw

/-- The bind-group bindings recorded by a render outcome, in order. -/
def RenderResult.bindGroupSets : RenderResult → List RenderCmd
  | .crash _ => []
  | .ok commands => commands.filter RenderCmd.isBindGroupSet

/-! ## Spec-side definitions, for comparison against the source embedding -/

/-- Spec §4.2: the fixed affine clip-space correction that remaps the
OpenGL-style depth range [-1, 1] to the [0, 1] depth convention: identity on
x and y, `z' = z/2 + w/2` on homogeneous coordinates. -/
def clip_space_correction : Mat4 :=
  ⟨⟨1, 0, 0, 0⟩, ⟨0, 1, 0, 0⟩, ⟨0, 0, 1/2, 0⟩, ⟨0, 0, 1/2, 1⟩⟩

/-- Spec §4.2: the forward offset subtracted from the eye to obtain the
look-at target; subtracting the unit z vector displaces the target one unit
along -z from the eye. -/
def forward_offset : Vec3 := ⟨0, 0, 1⟩

/-- Spec §4.2, stated in the spec's words: the view-projection matrix is
`clip_space_correction * perspective(fovy, aspect, znear, zfar) *
look_at(eye, eye - forward_offset, up)`. -/
def spec_view_projection (cotHalfDeg : ℚ → ℚ) (invLen : Vec3 → ℚ)
    (c : Camera) : Mat4 :=
  Mat4.mul
    (Mat4.mul clip_space_correction
      (perspective cotHalfDeg c.fovy c.aspect c.znear c.zfar))
    (Matrix4.look_at invLen c.eye (Vec3.sub c.eye forward_offset) c.up)

/-- The key codes handled by `process_events` (every other key falls to the
wildcard arm and is not consumed). -/
def recognizedKey : VirtualKeyCode → Bool
  | .A | .D | .W | .S | .R | .E | .F | .Q => true
  | .Left | .Right | .Up | .Down => true
  | .LShift | .RShift | .LAlt | .RAlt => true
  | _ => false

/-! ## Concrete fixtures used by witnesses and counterexamples -/

def exCamera : Camera :=
  ⟨⟨0, 1, 50⟩, ⟨0, 1, 0⟩, 4/3, 45, 1/10, 100⟩

def exObject : Object := ⟨0, 1, 3, [], 2⟩

def exBindGroup : BindGroup := ⟨3, uniformsByteSize, 2, 0⟩

def exGpu : GpuState :=
  ⟨0, ⟨4⟩, 0, ⟨800, 600⟩, ⟨800, 600, 0⟩, 0, 3, exBindGroup⟩

def exState : State :=
  ⟨⟨⟨0, 0, 0, 1⟩⟩, exCamera, CameraController.new (1/5), ⟨Mat4.identity⟩,
   exGpu, ⟨800, 600⟩, [exObject]⟩

def exPosition : Vec3 := ⟨5, 6, 7⟩

def exRotation : Quat := ⟨1, ⟨0, 0, 0⟩⟩

/-! ## Helper lemmas about the render command trace -/

lemma drawAll_filter_bindGroupSet (l : List Object) :
    (drawAll l).filter RenderCmd.isBindGroupSet = [] := by
  induction l with
  | nil => rfl
  | cons o rest ih =>
    rw [drawAll, List.filter_append, ih, List.append_nil]
    unfold Object.drawCommands
    split
    · rfl
    · rfl

lemma drawAll_filter_isDraw (l : List Object) :
    (drawAll l).filter RenderCmd.isDraw =
      (l.filter fun o => 0 < o.num_instances).map
        (fun o => RenderCmd.drawIndexed o.num_indices 0 o.num_instances) := by
  induction l with
  | nil => rfl
  | cons o rest ih =>
    rw [drawAll, List.filter_append, ih]
    unfold Object.drawCommands
    by_cases h0 : 0 < o.num_instances
    · have hp : List.filter (fun o : Object => decide (0 < o.num_instances))
          (o :: rest)
          = o :: List.filter (fun o : Object => decide (0 < o.num_instances))
              rest := by
        simp [List.filter_cons, h0]
      rw [if_pos h0, hp, List.map_cons]
      rfl
    · have hp : List.filter (fun o : Object => decide (0 < o.num_instances))
          (o :: rest)
          = List.filter (fun o : Object => decide (0 < o.num_instances))
              rest := by
        simp [List.filter_cons, h0]
      rw [if_neg h0, hp]
      rfl

/-! ## Claims -/

/-- C1 (counterexample): on a concrete state, when frame acquisition fails,
`render` crashes (the `expect` call aborts the process); it does not report
a recoverable per-frame error as the claim states. -/
theorem render_acquire_failure_crashes_cex :
    (State.render exState none).isCrash = true := rfl

/-- C1 (amended): when acquiring the next presentable frame fails, `render`
aborts via `expect` with the message "Timeout getting texture"; the failure
is not surfaced to the caller as a recoverable per-frame error. -/
theorem render_acquire_failure_aborts (s : State) :
    State.render s none = RenderResult.crash "Timeout getting texture" := rfl

/-- C2 (counterexample): on a concrete state with camera aspect 4/3,
resizing to 200x100 leaves the camera aspect at 4/3, which differs from the
new surface aspect 200/100; `resize` does not update the camera's aspect
ratio as the claim states. -/
theorem resize_aspect_not_updated_cex :
    (State.resize exState ⟨200, 100⟩).camera.aspect = 4/3 ∧
    (4/3 : ℚ) ≠ (200 : ℚ)/100 := by
  refine ⟨rfl, by norm_num⟩

/-- C2 (amended): `resize(new_size)` recreates the presentation surface at
the new size (descriptor and swap chain take the new width and height, the
swap chain is a fresh generation) but leaves the camera — and in particular
its aspect ratio — unchanged; calling `resize` twice with the same size
leaves the reported surface dimensions and the camera aspect ratio unchanged
from the first call's result. -/
theorem resize_recreates_surface_camera_untouched (s : State)
    (ns : PhysicalSize) :
    (State.resize s ns).gpu.sc_desc = ⟨ns.width, ns.height⟩ ∧
    (State.resize s ns).gpu.swap_chain.width = ns.width ∧
    (State.resize s ns).gpu.swap_chain.height = ns.height ∧
    (State.resize s ns).size = ns ∧
    (State.resize s ns).camera = s.camera ∧
    (State.resize (State.resize s ns) ns).gpu.sc_desc
      = (State.resize s ns).gpu.sc_desc ∧
    (State.resize (State.resize s ns) ns).size = (State.resize s ns).size ∧
    (State.resize (State.resize s ns) ns).camera.aspect
      = (State.resize s ns).camera.aspect := by
  cases ns
  exact ⟨rfl, rfl, rfl, rfl, rfl, rfl, rfl, rfl⟩

/-- C3: `create_instance` on a handle that is not the index of an existing
object returns `none` and leaves the whole state — every object's instance
list and buffer, the bind group and the pipeline — unchanged. -/
theorem create_instance_unknown_handle_no_effect (s : State) (object_id : ℕ)
    (position : Vec3) (rotation : Quat) (h : s.objects.length ≤ object_id) :
    State.create_instance s object_id position rotation = (none, s) := by
  unfold State.create_instance
  rw [List.getElem?_eq_none h]

/-- C3 (witness): the invalid-handle theorem applied to a concrete state
with one object and handle 3. -/
theorem create_instance_unknown_handle_no_effect_witness :
    State.create_instance exState 3 exPosition exRotation = (none, exState) :=
  create_instance_unknown_handle_no_effect exState 3 exPosition exRotation
    (by decide)

/-- C8: on a valid handle, `create_instance` returns the object's instance
count before the call — the zero-based index of the newly added instance —
and the object's instance list afterwards is the old list with the new
instance appended at exactly that index. -/
theorem create_instance_returns_prior_count (s : State) (object_id : ℕ)
    (position : Vec3) (rotation : Quat) (h : object_id < s.objects.length) :
    (State.create_instance s object_id position rotation).1 =
      some (s.objects[object_id].instances.length) ∧
    ((State.create_instance s object_id position rotation).2.objects[object_id]?).map
        Object.instances =
      some (s.objects[object_id].instances ++ [⟨position, rotation⟩]) := by
  unfold State.create_instance
  rw [List.getElem?_eq_getElem h]
  refine ⟨?_, ?_⟩
  · simp [Object.add_instance, Object.num_instances]
  · simp [List.getElem?_set_self h, Object.add_instance, Object.instances]

/-- C8 (witness): the prior-count theorem applied to a concrete state with
one object holding no instances and handle 0. -/
theorem create_instance_returns_prior_count_witness :
    0 < exState.objects.length ∧
    (State.create_instance exState 0 exPosition exRotation).1 = some 0 :=
  ⟨by decide,
   by
     have h := create_instance_returns_prior_count exState 0 exPosition
       exRotation (by decide)
     exact h.1⟩

/-- C4: after a successful `create_instance` call, the manager's single bind
group has its storage-buffer binding on exactly the instance buffer of the
object that was just mutated, and `render` records exactly one bind-group
binding — that bind group, at index 0 — which therefore serves every
object's draw call. -/
theorem bind_group_references_mutated_object (s : State) (object_id : ℕ)
    (position : Vec3) (rotation : Quat) (h : object_id < s.objects.length)
    (frame : ℕ) :
    ((State.create_instance s object_id position rotation).1).isSome = true ∧
    ((State.create_instance s object_id position rotation).2.objects[object_id]?).map
        Object.instance_buffer =
      some ((State.create_instance s object_id position
        rotation).2.gpu.uniform_bind_group.storage_buffer) ∧
    (State.render (State.create_instance s object_id position rotation).2
        (some frame)).bindGroupSets =
      [RenderCmd.setBindGroup 0 (State.create_instance s object_id position
        rotation).2.gpu.uniform_bind_group] := by
  unfold State.create_instance
  rw [List.getElem?_eq_getElem h]
  refine ⟨rfl, ?_, ?_⟩
  · simp [List.getElem?_set_self h, Object.add_instance, Object.instance_buffer]
  · simp only [State.render, RenderResult.bindGroupSets, List.filter_append,
      drawAll_filter_bindGroupSet, List.append_nil]
    rfl

/-- C4 (witness): the single-bind-group theorem applied to a concrete state
with one object, at handle 0 and frame 7. -/
theorem bind_group_references_mutated_object_witness :
    0 < exState.objects.length ∧
    ((State.create_instance exState 0 exPosition exRotation).1).isSome
      = true ∧
    (State.render (State.create_instance exState 0 exPosition
        exRotation).2 (some 7)).bindGroupSets =
      [RenderCmd.setBindGroup 0 (State.create_instance exState 0 exPosition
        exRotation).2.gpu.uniform_bind_group] :=
  ⟨by decide,
   (bind_group_references_mutated_object exState 0 exPosition exRotation
     (by decide) 7).1,
   (bind_group_references_mutated_object exState 0 exPosition exRotation
     (by decide) 7).2.2⟩

/-- C6: a successful `render` issues exactly one instanced indexed draw call
per object with a positive instance count, in creation order, and issues no
draw call for an object with zero instances. -/
theorem render_one_draw_per_nonempty_object (s : State) (frame : ℕ) :
    (State.render s (some frame)).drawCalls =
      (s.objects.filter fun o => 0 < o.num_instances).map
        (fun o => RenderCmd.drawIndexed o.num_indices 0 o.num_instances) := by
  simp only [State.render, RenderResult.drawCalls, List.filter_append,
    drawAll_filter_isDraw]
  rfl

/-- C5: for every controller state, an unrecognized key (or a keyboard event
without a key code, or a non-keyboard event) is ignored and reported as not
consumed; a key-down event sets the corresponding axis to its signed unit
value (or the speed multiplier to 2 or 1/4); a key-up event resets the axis
to exactly 0 (or the multiplier to 1); and pressing two opposite-direction
keys for the same axis leaves the axis at the most recently pressed key's
value (last-write-wins, not additive), while press-then-release returns the
axis to 0. -/
theorem controller_key_transitions (c : CameraController)
    (state : ElementState) :
    (∀ k : VirtualKeyCode, recognizedKey k = false →
      c.process_events (.keyboardInput state (some k)) = (false, c)) ∧
    c.process_events (.keyboardInput state none) = (false, c) ∧
    c.process_events .otherEvent = (false, c) ∧
    c.process_events (.keyboardInput .Pressed (some .A))
      = (true, { c with x_axis := -1 }) ∧
    c.process_events (.keyboardInput .Pressed (some .Left))
      = (true, { c with x_axis := -1 }) ∧
    c.process_events (.keyboardInput .Pressed (some .D))
      = (true, { c with x_axis := 1 }) ∧
    c.process_events (.keyboardInput .Pressed (some .Right))
      = (true, { c with x_axis := 1 }) ∧
    c.process_events (.keyboardInput .Pressed (some .W))
      = (true, { c with y_axis := 1 }) ∧
    c.process_events (.keyboardInput .Pressed (some .Up))
      = (true, { c with y_axis := 1 }) ∧
    c.process_events (.keyboardInput .Pressed (some .S))
      = (true, { c with y_axis := -1 }) ∧
    c.process_events (.keyboardInput .Pressed (some .Down))
      = (true, { c with y_axis := -1 }) ∧
    c.process_events (.keyboardInput .Pressed (some .R))
      = (true, { c with z_axis := -1 }) ∧
    c.process_events (.keyboardInput .Pressed (some .E))
      = (true, { c with z_axis := -1 }) ∧
    c.process_events (.keyboardInput .Pressed (some .F))
      = (true, { c with z_axis := 1 }) ∧
    c.process_events (.keyboardInput .Pressed (some .Q))
      = (true, { c with z_axis := 1 }) ∧
    c.process_events (.keyboardInput .Pressed (some .LShift))
      = (true, { c with speed_multiplier := 2 }) ∧
    c.process_events (.keyboardInput .Pressed (some .RShift))
      = (true, { c with speed_multiplier := 2 }) ∧
    c.process_events (.keyboardInput .Pressed (some .LAlt))
      = (true, { c with speed_multiplier := 1/4 }) ∧
    c.process_events (.keyboardInput .Pressed (some .RAlt))
      = (true, { c with speed_multiplier := 1/4 }) ∧
    c.process_events (.keyboardInput .Released (some .A))
      = (true, { c with x_axis := 0 }) ∧
    c.process_events (.keyboardInput .Released (some .Left))
      = (true, { c with x_axis := 0 }) ∧
    c.process_events (.keyboardInput .Released (some .D))
      = (true, { c with x_axis := 0 }) ∧
    c.process_events (.keyboardInput .Released (some .Right))
      = (true, { c with x_axis := 0 }) ∧
    c.process_events (.keyboardInput .Released (some .W))
      = (true, { c with y_axis := 0 }) ∧
    c.process_events (.keyboardInput .Released (some .Up))
      = (true, { c with y_axis := 0 }) ∧
    c.process_events (.keyboardInput .Released (some .S))
      = (true, { c with y_axis := 0 }) ∧
    c.process_events (.keyboardInput .Released (some .Down))
      = (true, { c with y_axis := 0 }) ∧
    c.process_events (.keyboardInput .Released (some .R))
      = (true, { c with z_axis := 0 }) ∧
    c.process_events (.keyboardInput .Released (some .E))
      = (true, { c with z_axis := 0 }) ∧
    c.process_events (.keyboardInput .Released (some .F))
      = (true, { c with z_axis := 0 }) ∧
    c.process_events (.keyboardInput .Released (some .Q))
      = (true, { c with z_axis := 0 }) ∧
    c.process_events (.keyboardInput .Released (some .LShift))
      = (true, { c with speed_multiplier := 1 }) ∧
    c.process_events (.keyboardInput .Released (some .RShift))
      = (true, { c with speed_multiplier := 1 }) ∧
    c.process_events (.keyboardInput .Released (some .LAlt))
      = (true, { c with speed_multiplier := 1 }) ∧
    c.process_events (.keyboardInput .Released (some .RAlt))
      = (true, { c with speed_multiplier := 1 }) ∧
    ((c.process_events (.keyboardInput .Pressed (some .A))).2.process_events
        (.keyboardInput .Pressed (some .D))).2 = { c with x_axis := 1 } ∧
    ((c.process_events (.keyboardInput .Pressed (some .D))).2.process_events
        (.keyboardInput .Pressed (some .A))).2 = { c with x_axis := -1 } ∧
    ((c.process_events (.keyboardInput .Pressed (some .A))).2.process_events
        (.keyboardInput .Released (some .A))).2 = { c with x_axis := 0 } := by
  constructor
  · intro k hk
    cases k <;> first | rfl | simp [recognizedKey] at hk
  · and_intros <;> rfl

/-- C5 (witness): an unrecognized key (Space) on a concrete controller is
ignored and not consumed. -/
theorem controller_key_transitions_witness :
    recognizedKey VirtualKeyCode.Space = false ∧
    CameraController.process_events (CameraController.new (1/5))
        (.keyboardInput .Pressed (some .Space))
      = (false, CameraController.new (1/5)) :=
  ⟨rfl,
   (controller_key_transitions (CameraController.new (1/5))
     ElementState.Pressed).1 VirtualKeyCode.Space rfl⟩

/-- C7: for every camera (and every value of the irrational oracles), the
view-projection matrix equals the spec's formula
`clip_space_correction * perspective(fovy, aspect, znear, zfar) *
look_at(eye, eye - forward_offset, up)`; the clip-space correction is the
fixed affine map that keeps x, y and w and sends z to `z/2 + w/2`, so it
remaps depth -1 to 0 and depth 1 to 1, and it is exactly the source's
`OPENGL_TO_WGPU_MATRIX` constant. -/
theorem view_projection_matches_spec (cotHalfDeg : ℚ → ℚ)
    (invLen : Vec3 → ℚ) (c : Camera) :
    Camera.build_view_projection_matrix cotHalfDeg invLen c
      = spec_view_projection cotHalfDeg invLen c ∧
    (∀ v : Vec4, clip_space_correction.mulVec v
      = ⟨v.x, v.y, v.z/2 + v.w/2, v.w⟩) ∧
    clip_space_correction.mulVec ⟨0, 0, -1, 1⟩ = ⟨0, 0, 0, 1⟩ ∧
    clip_space_correction.mulVec ⟨0, 0, 1, 1⟩ = ⟨0, 0, 1, 1⟩ ∧
    clip_space_correction = OPENGL_TO_WGPU_MATRIX := by
  refine ⟨?_, ?_,
    by norm_num [clip_space_correction, Mat4.mulVec, Vec4.mk.injEq],
    by norm_num [clip_space_correction, Mat4.mulVec, Vec4.mk.injEq],
    by norm_num [clip_space_correction, OPENGL_TO_WGPU_MATRIX]⟩
  · have ht : Vec3.sub c.eye forward_offset
        = ⟨c.eye.x, c.eye.y, c.eye.z - 1⟩ := by
      simp [Vec3.sub, forward_offset]
    unfold Camera.build_view_projection_matrix spec_view_projection
    rw [ht]
    rfl
  · intro v
    simp [Mat4.mulVec, clip_space_correction, Vec4.mk.injEq]
    ring

/-- C9: the raw model matrix of an `Instance`
(`from_translation(position) * from(rotation)`) has the instance's position,
exactly, as its translation column `(position.x, position.y, position.z, 1)`. -/
theorem to_raw_translation_column (i : Instance) :
    (Instance.to_raw i).model.c3
      = ⟨i.position.x, i.position.y, i.position.z, 1⟩ := by
  simp [Instance.to_raw, Mat4.mul, Mat4.mulVec, Matrix4.from_translation,
    Matrix4.from_quaternion]

/-- C10: one `update_camera` step adds exactly
`axis * speed * speed_multiplier` to each eye coordinate and leaves every
other camera field (up, aspect, fovy, znear, zfar) unchanged. -/
theorem update_camera_moves_eye_only (ctrl : CameraController)
    (camera : Camera) :
    (ctrl.update_camera camera).eye.x
      = camera.eye.x + ctrl.x_axis * ctrl.speed * ctrl.speed_multiplier ∧
    (ctrl.update_camera camera).eye.y
      = camera.eye.y + ctrl.y_axis * ctrl.speed * ctrl.speed_multiplier ∧
    (ctrl.update_camera camera).eye.z
      = camera.eye.z + ctrl.z_axis * ctrl.speed * ctrl.speed_multiplier ∧
    (ctrl.update_camera camera).up = camera.up ∧
    (ctrl.update_camera camera).aspect = camera.aspect ∧
    (ctrl.update_camera camera).fovy = camera.fovy ∧
    (ctrl.update_camera camera).znear = camera.znear ∧
    (ctrl.update_camera camera).zfar = camera.zfar :=
  ⟨rfl, rfl, rfl, rfl, rfl, rfl, rfl, rfl⟩

end Blobbin
